import Mathlib

/-!
Shallow embedding of the eventplanner backend (controllers.go, models.go,
routes.go) and verification of its specification claims.

Conventions of the embedding:
* The relational store (gorm) is a `DBState` of four in-memory tables plus
  auto-increment counters; `DB.Create` appends a row carrying the next counter
  value, `First`/`Where ... First` is `List.find?`, `Find` with a filter is
  `List.filter`, and `Order("date asc")` is `List.insertionSort`.
* Machine integers (uint, int64) are `Nat`/`Int`; the parse functions check the
  64-bit bounds exactly where the Go standard library does.
* Time instants are absolute seconds (`Int`) since 0001-01-01T00:00:00 UTC,
  Go's zero time, so that `time.Time.IsZero` is the test `= 0`.
* Fallible storage writes relevant to the claims are driven by explicit
  failure oracles; `DB.Transaction` rolls back to the caller's state on error.
* Timestamp bookkeeping columns (CreatedAt/UpdatedAt) and the password hash
  are omitted: no handler modelled here reads them.
-/

deriving instance DecidableEq for Except

namespace EventPlanner

/-! ## Go string helpers (strings.TrimSpace / ToLower / Title) -/

/-- Models Go `unicode.IsSpace` on the characters the handlers can meet
(ASCII whitespace plus the Latin-1 NEL and no-break space). -/
def goIsSpace (c : Char) : Bool :=
  c == ' ' || c == '\t' || c == '\n' || c.toNat == 11 || c.toNat == 12 ||
    c == '\r' || c.toNat == 133 || c.toNat == 160

/-- Models Go `strings.TrimSpace`. -/
def goTrimSpace (s : String) : String :=
  String.mk (((s.toList.dropWhile goIsSpace).reverse.dropWhile goIsSpace).reverse)

/-- Models Go `unicode.ToLower` (ASCII range; other runes are untouched,
which agrees with Go on every string the claims mention). -/
def goToLowerChar (c : Char) : Char :=
  if 'A' ≤ c && c ≤ 'Z' then Char.ofNat (c.toNat + 32) else c

/-- Models Go `strings.ToLower`. -/
def goToLower (s : String) : String :=
  String.mk (s.toList.map goToLowerChar)

/-- Models Go `unicode.ToTitle` (ASCII range). -/
def goToUpperChar (c : Char) : Char :=
  if 'a' ≤ c && c ≤ 'z' then Char.ofNat (c.toNat - 32) else c

/-- Models the `isSeparator` helper used by Go `strings.Title`: within ASCII,
letters, digits and underscore are not separators and everything else is;
beyond ASCII only the Latin-1 white space is treated as a separator. -/
def goIsSeparator (c : Char) : Bool :=
  if c.toNat ≤ 127 then
    !(('0' ≤ c && c ≤ '9') || ('a' ≤ c && c ≤ 'z') || ('A' ≤ c && c ≤ 'Z') || c == '_')
  else c.toNat == 133 || c.toNat == 160

/-- The rune mapper of Go `strings.Title`: upper-cases a rune that follows a
separator, threading the previous (original) rune. -/
def titleMap : Char → List Char → List Char
  | _, [] => []
  | prev, c :: rest =>
      (if goIsSeparator prev then goToUpperChar c else c) :: titleMap c rest

/-- Models Go `strings.Title` (the previous rune starts as a space). -/
def goTitle (s : String) : String :=
  String.mk (titleMap ' ' s.toList)

/-- Status normalization of `SetAttendance` (controllers.go line 327):
`strings.Title(strings.ToLower(strings.TrimSpace(s)))`. -/
def normalizeStatus (s : String) : String :=
  goTitle (goToLower (goTrimSpace s))

/-- Is `pat` an initial segment of `hay`? -/
def leadsList : List Char → List Char → Bool
  | [], _ => true
  | _ :: _, [] => false
  | a :: as, b :: bs => a == b && leadsList as bs

/-- Is `pat` a contiguous segment of `hay`? -/
def containsSub (hay pat : List Char) : Bool :=
  match hay with
  | [] => pat.isEmpty
  | _ :: t => leadsList pat hay || containsSub t pat

/-- Case-insensitive substring test: the meaning of the SQL
`column ILIKE '%kw%'` filters built by `SearchHandler`. -/
def containsCI (hay pat : String) : Bool :=
  containsSub (hay.toList.map goToLowerChar) (pat.toList.map goToLowerChar)

/-! ## Time (Go `time.Parse` on the two layouts the handlers use) -/

/-- Proleptic Gregorian leap-year rule. -/
def isLeapYear (y : Int) : Bool :=
  (y % 4 == 0 && y % 100 != 0) || y % 400 == 0

def daysInMonth (y m : Int) : Int :=
  if m == 2 then (if isLeapYear y then 29 else 28)
  else if m == 4 || m == 6 || m == 9 || m == 11 then 30
  else 31

/-- Days since 1970-01-01 of a proleptic Gregorian civil date
(Hinnant's algorithm, with floor division so that every year is handled). -/
def daysFromCivil (y m d : Int) : Int :=
  let y2 := if m ≤ 2 then y - 1 else y
  let era := Int.fdiv y2 400
  let yoe := y2 - era * 400
  let mp := if m > 2 then m - 3 else m + 9
  let doy := (153 * mp + 2) / 5 + d - 1
  let doe := yoe * 365 + yoe / 4 - yoe / 100 + doy
  era * 146097 + doe - 719468

/-- Absolute seconds since Go's zero time 0001-01-01T00:00:00 UTC. -/
def goAbsSec (y mo d h mi sec offSec : Int) : Int :=
  (daysFromCivil y mo d + 719162) * 86400 + h * 3600 + mi * 60 + sec - offSec

def digitVal (c : Char) : Option Nat :=
  if '0' ≤ c && c ≤ '9' then some (c.toNat - 48) else none

def num2 (a b : Char) : Option Nat := do
  let x ← digitVal a
  let y ← digitVal b
  pure (10 * x + y)

def num4 (a b c d : Char) : Option Nat := do
  let x ← num2 a b
  let y ← num2 c d
  pure (100 * x + y)

def validCivil (y m d : Nat) : Bool :=
  1 ≤ m && m ≤ 12 && 1 ≤ d && (Int.ofNat d) ≤ daysInMonth (Int.ofNat y) (Int.ofNat m)

/-- Models Go `time.Parse("2006-01-02", s)`. -/
def parseDateOnly (s : String) : Option Int :=
  match s.toList with
  | [y1, y2, y3, y4, c1, m1, m2, c2, d1, d2] =>
    if c1 == '-' && c2 == '-' then
      match num4 y1 y2 y3 y4, num2 m1 m2, num2 d1 d2 with
      | some y, some m, some d =>
        if validCivil y m d then
          some (goAbsSec (Int.ofNat y) (Int.ofNat m) (Int.ofNat d) 0 0 0 0)
        else none
      | _, _, _ => none
    else none
  | _ => none

/-- The zone suffix of an RFC3339 timestamp: `Z` or `±hh:mm`, yielding the
offset in seconds. -/
def parseZone : List Char → Option Int
  | [z] => if z == 'Z' then some 0 else none
  | [sg, h1, h2, cl, m1, m2] =>
    if (sg == '+' || sg == '-') && cl == ':' then
      match num2 h1 h2, num2 m1 m2 with
      | some h, some m =>
        if h ≤ 23 && m ≤ 59 then
          some ((if sg == '-' then (-1 : Int) else 1) * (3600 * Int.ofNat h + 60 * Int.ofNat m))
        else none
      | _, _ => none
    else none
  | _ => none

/-- Models Go `time.Parse(time.RFC3339, s)` (fractional seconds, which no
claim exercises, are not modelled). -/
def parseRFC3339 (s : String) : Option Int :=
  match s.toList with
  | y1 :: y2 :: y3 :: y4 :: c1 :: m1 :: m2 :: c2 :: d1 :: d2 :: ct :: h1 :: h2 :: c3 ::
      n1 :: n2 :: c4 :: e1 :: e2 :: rest =>
    if c1 == '-' && c2 == '-' && ct == 'T' && c3 == ':' && c4 == ':' then
      match num4 y1 y2 y3 y4, num2 m1 m2, num2 d1 d2, num2 h1 h2, num2 n1 n2,
            num2 e1 e2, parseZone rest with
      | some y, some mo, some d, some h, some mi, some sec, some off =>
        if validCivil y mo d && h ≤ 23 && mi ≤ 59 && sec ≤ 59 then
          some (goAbsSec (Int.ofNat y) (Int.ofNat mo) (Int.ofNat d)
                  (Int.ofNat h) (Int.ofNat mi) (Int.ofNat sec) off)
        else none
      | _, _, _, _, _, _, _ => none
    else none
  | _ => none

/-- Date parsing as done by `CreateEvent` (lines 69-76) and `SearchHandler`
(lines 543-561): RFC3339 first, then `YYYY-MM-DD`. -/
def parseEventDate (s : String) : Option Int :=
  match parseRFC3339 s with
  | some v => some v
  | none => parseDateOnly s

/-! ## Numeric parameter parsing (strconv) -/

def decValAux : List Char → Nat → Option Nat
  | [], acc => some acc
  | c :: rest, acc =>
    match digitVal c with
    | some d => decValAux rest (10 * acc + d)
    | none => none

/-- Models Go `strconv.ParseUint(s, 10, 64)`. -/
def parseUint64 (s : String) : Option Nat :=
  match s.toList with
  | [] => none
  | l =>
    match decValAux l 0 with
    | some v => if v < 2 ^ 64 then some v else none
    | none => none

def parseAtoiCore (l : List Char) (sign : Int) : Option Int :=
  match l with
  | [] => none
  | _ =>
    match decValAux l 0 with
    | some v =>
      let n : Int := sign * Int.ofNat v
      if -(2 ^ 63) ≤ n && n < 2 ^ 63 then some n else none
    | none => none

/-- Models Go `strconv.Atoi` on a 64-bit platform. -/
def parseAtoi (s : String) : Option Int :=
  match s.toList with
  | [] => none
  | c :: rest =>
    if c == '-' then parseAtoiCore rest (-1)
    else if c == '+' then parseAtoiCore rest 1
    else parseAtoiCore (c :: rest) 1

/-! ## Data model (models.go) -/

/-- models.go `User` (credential and timestamp columns omitted: no handler
modelled here reads them). -/
structure User where
  id : Nat
  email : String
deriving DecidableEq

/-- models.go `Event`. -/
structure Event where
  id : Nat
  title : String
  description : String
  location : String
  date : Int
  organizerID : Nat
deriving DecidableEq

/-- models.go `Task`. -/
structure Task where
  id : Nat
  eventID : Nat
  title : String
  description : String
deriving DecidableEq

/-- models.go `EventAttendee`. -/
structure EventAttendee where
  id : Nat
  eventID : Nat
  userID : Nat
  role : String
  status : String
deriving DecidableEq

/-- The relational store: the four tables plus per-table auto-increment
counters for primary keys. -/
structure DBState where
  users : List User
  events : List Event
  tasks : List Task
  attendees : List EventAttendee
  nextEventID : Nat
  nextTaskID : Nat
  nextAttendeeID : Nat
deriving DecidableEq

/-- Outcome of a handler: HTTP status code plus the message the controller
writes (success body or `error` field). -/
inductive HResp where
  | ok (code : Nat) (msg : String)
  | err (code : Nat) (msg : String)
deriving DecidableEq

/-! ## Event handlers (controllers.go) -/

/-- controllers.go `CreateEventRequest`. -/
structure CreateEventRequest where
  title : String
  description : String
  location : String
  date : String
deriving DecidableEq

/-- Which of `CreateEvent`'s two storage writes fail. -/
structure CreateOracle where
  failEvent : Bool
  failAttendee : Bool
deriving DecidableEq

def noFailCreate : CreateOracle := ⟨false, false⟩

/-- The `FirstOrCreate` organizer-attendance write of `CreateEvent`
(controllers.go lines 92-99), run on the state `s1` holding the new event:
if a row for (event, creator) already exists nothing changes, otherwise the
organizer row is created — and a failure of that write is silently dropped
(the Go code discards the result with `_ =`). -/
def organizerRowHook (orc : CreateOracle) (userID evID : Nat) (s1 : DBState) : DBState :=
  match s1.attendees.find? (fun a => a.eventID == evID && a.userID == userID) with
  | some _ => s1
  | none =>
    if orc.failAttendee then s1
    else
      { s1 with
        attendees := s1.attendees ++ [⟨s1.nextAttendeeID, evID, userID, "organizer", ""⟩],
        nextAttendeeID := s1.nextAttendeeID + 1 }

/-- controllers.go `CreateEvent` (lines 53-102). `auth = none` models a
request the middleware did not authenticate; `body = none` a JSON bind
failure (the `binding:"required"` fields also fail the bind when empty).
Note line 99: the result of the organizer-attendance `FirstOrCreate` is
discarded, so a failure of that second write is ignored. -/
def CreateEvent (auth : Option Nat) (body : Option CreateEventRequest)
    (orc : CreateOracle) (s : DBState) : HResp × DBState :=
  match auth with
  | none => (HResp.err 401 "unauthorized", s)
  | some userID =>
    match body with
    | none => (HResp.err 400 "invalid request", s)
    | some b =>
      if b.title == "" || b.date == "" then (HResp.err 400 "invalid request", s)
      else
        match parseEventDate b.date with
        | none => (HResp.err 400 "invalid date format (use RFC3339 or YYYY-MM-DD)", s)
        | some d =>
          if orc.failEvent then (HResp.err 500 "could not create event", s)
          else
            (HResp.ok 201 "created",
             organizerRowHook orc userID s.nextEventID
               { s with
                 events :=
                   s.events ++
                     [⟨s.nextEventID, goTrimSpace b.title, b.description, b.location, d, userID⟩],
                 nextEventID := s.nextEventID + 1 })

/-- Which of `DeleteEvent`'s three cascading deletes fail. -/
structure DeleteOracle where
  failAttendees : Bool
  failTasks : Bool
  failEvent : Bool
deriving DecidableEq

def noFailDelete : DeleteOracle := ⟨false, false, false⟩

/-- The transaction body of `DeleteEvent` (controllers.go lines 186-196):
three deletes in sequence; an error aborts and the enclosing
`DB.Transaction` rolls everything back. -/
def deleteTx (orc : DeleteOracle) (evID : Nat) (s : DBState) : Option DBState :=
  if orc.failAttendees then none
  else
    let s1 := { s with attendees := s.attendees.filter (fun a => a.eventID != evID) }
    if orc.failTasks then none
    else
      let s2 := { s1 with tasks := s1.tasks.filter (fun t => t.eventID != evID) }
      if orc.failEvent then none
      else some { s2 with events := s2.events.filter (fun e => e.id != evID) }

/-- controllers.go `DeleteEvent` (lines 151-203). -/
def DeleteEvent (auth : Option Nat) (idParam : String) (orc : DeleteOracle)
    (s : DBState) : HResp × DBState :=
  match auth with
  | none => (HResp.err 401 "unauthorized", s)
  | some userID =>
    if idParam == "" then (HResp.err 400 "missing event id", s)
    else
      match parseAtoi idParam with
      | none => (HResp.err 400 "invalid event id", s)
      | some idv =>
        match s.events.find? (fun e => Int.ofNat e.id == idv) with
        | none => (HResp.err 404 "event not found", s)
        | some ev =>
          if ev.organizerID != userID then
            (HResp.err 403 "only organizer can delete the event", s)
          else
            match deleteTx orc ev.id s with
            | none => (HResp.err 500 "delete failed", s)
            | some s2 => (HResp.ok 200 "event deleted", s2)

/-- controllers.go `InviteUser` (lines 214-295). `body` is the `user_id`
field of `InviteRequest`; `none` models a bind failure and the value `0`
fails the required binding. -/
def InviteUser (auth : Option Nat) (idParam : String) (body : Option Nat)
    (s : DBState) : HResp × DBState :=
  match auth with
  | none => (HResp.err 401 "unauthorized", s)
  | some userID =>
    match parseUint64 idParam with
    | none => (HResp.err 400 "invalid event id", s)
    | some eventID =>
      match body with
      | none => (HResp.err 400 "invalid body", s)
      | some target =>
        if target == 0 then (HResp.err 400 "invalid body", s)
        else
          match s.events.find? (fun e => e.id == eventID) with
          | none => (HResp.err 404 "event not found", s)
          | some ev =>
            if ev.organizerID != userID then
              (HResp.err 403 "only organizer can invite others", s)
            else
              match s.users.find? (fun u => u.id == target) with
              | none => (HResp.err 404 "invited user not found", s)
              | some invitee =>
                if invitee.id == ev.organizerID then
                  (HResp.err 400 "user is already organizer", s)
                else
                  match s.attendees.find?
                      (fun a => a.eventID == eventID && a.userID == invitee.id) with
                  | some _ => (HResp.ok 200 "user already invited or participant", s)
                  | none =>
                    (HResp.ok 200 "user invited",
                     { s with
                       attendees :=
                         s.attendees ++ [⟨s.nextAttendeeID, eventID, invitee.id, "attendee", ""⟩],
                       nextAttendeeID := s.nextAttendeeID + 1 })

/-- controllers.go `SetAttendance` (lines 306-374). `body` is the `status`
field of `AttendanceRequest`; `none` models a bind failure and the empty
string fails the required binding. -/
def SetAttendance (auth : Option Nat) (idParam : String) (body : Option String)
    (s : DBState) : HResp × DBState :=
  match auth with
  | none => (HResp.err 401 "unauthorized", s)
  | some userID =>
    match parseUint64 idParam with
    | none => (HResp.err 400 "invalid event id", s)
    | some eventID =>
      match body with
      | none => (HResp.err 400 "invalid body", s)
      | some raw =>
        if raw == "" then (HResp.err 400 "invalid body", s)
        else
          if normalizeStatus raw != "Going" && normalizeStatus raw != "Maybe" &&
              normalizeStatus raw != "Not Going" then
            (HResp.err 400 "status must be one of: Going, Maybe, Not Going", s)
          else
            match s.events.find? (fun e => e.id == eventID) with
            | none => (HResp.err 404 "event not found", s)
            | some _ =>
              match s.attendees.find?
                  (fun a => a.eventID == eventID && a.userID == userID) with
              | none =>
                (HResp.ok 200 "attendance created",
                 { s with
                   attendees :=
                     s.attendees ++
                       [⟨s.nextAttendeeID, eventID, userID, "attendee", normalizeStatus raw⟩],
                   nextAttendeeID := s.nextAttendeeID + 1 })
              | some att =>
                (HResp.ok 200 "attendance updated",
                 { s with
                   attendees := s.attendees.map
                     (fun a =>
                       if a.id == att.id then { att with status := normalizeStatus raw } else a) })

/-- controllers.go `CreateTaskRequest`. -/
structure CreateTaskRequest where
  title : String
  description : String
deriving DecidableEq

/-- controllers.go `CreateTask` (lines 426-475): note that the event lookup
and the organizer check come before the body bind. -/
def CreateTask (auth : Option Nat) (idParam : String) (body : Option CreateTaskRequest)
    (s : DBState) : HResp × DBState :=
  match auth with
  | none => (HResp.err 401 "unauthorized", s)
  | some userID =>
    match parseUint64 idParam with
    | none => (HResp.err 400 "invalid event id", s)
    | some eventID =>
      match s.events.find? (fun e => e.id == eventID) with
      | none => (HResp.err 404 "event not found", s)
      | some ev =>
        if ev.organizerID != userID then
          (HResp.err 403 "only organizer can create tasks", s)
        else
          match body with
          | none => (HResp.err 400 "invalid body", s)
          | some b =>
            if b.title == "" then (HResp.err 400 "invalid body", s)
            else
              (HResp.ok 201 "created",
               { s with
                 tasks := s.tasks ++ [⟨s.nextTaskID, eventID, goTrimSpace b.title, b.description⟩],
                 nextTaskID := s.nextTaskID + 1 })

/-- controllers.go `GetTasksByEvent` (lines 477-493): only the id parse can
fail; there is no authentication lookup, no event-existence check and no
membership check in the handler body. -/
def GetTasksByEvent (idParam : String) (s : DBState) : Except (Nat × String) (List Task) :=
  match parseUint64 idParam with
  | none => Except.error (400, "invalid event id")
  | some eventID => Except.ok (s.tasks.filter (fun t => t.eventID == eventID))

/-! ## Search (controllers.go `SearchHandler`, lines 514-660) -/

/-- controllers.go `SearchRequest`. -/
structure SearchRequest where
  keyword : String
  startDate : String
  endDate : String
  role : String
  rtype : String
deriving DecidableEq

/-- A tagged search result: an event hit, or a task hit carrying its parent
event snapshot. -/
inductive SearchResult where
  | eventResult (e : Event)
  | taskResult (t : Task) (e : Event)
deriving DecidableEq

/-- Sort key of `Order("date asc")` on events. -/
def eventLE (a b : Event) : Prop := a.date ≤ b.date

instance : DecidableRel eventLE := fun a b => inferInstanceAs (Decidable (a.date ≤ b.date))

instance : IsTotal Event eventLE := ⟨fun a b => Int.le_total a.date b.date⟩

instance : IsTrans Event eventLE := ⟨fun _ _ _ h1 h2 => le_trans h1 h2⟩

/-- Sort key of `Order("events.date asc")` on task-event join rows. -/
def rowLE (p q : Task × Event) : Prop := p.2.date ≤ q.2.date

instance : DecidableRel rowLE := fun p q => inferInstanceAs (Decidable (p.2.date ≤ q.2.date))

instance : IsTotal (Task × Event) rowLE := ⟨fun p q => Int.le_total p.2.date q.2.date⟩

instance : IsTrans (Task × Event) rowLE := ⟨fun _ _ _ h1 h2 => le_trans h1 h2⟩

/-- Does the authenticated user hold an `attendee` row on the event?  The
meaning of the `JOIN event_attendees ea ... WHERE ea.user_id = ? AND
ea.role = ?` clause. -/
def attendeeOf (s : DBState) (eid uid : Nat) : Bool :=
  s.attendees.any (fun a => a.eventID == eid && a.userID == uid && a.role == "attendee")

/-- The WHERE clauses of the event query (lines 577-601): keyword over
title/description, date range on `date`, then the role restriction. -/
def eventMatches (userID : Nat) (kw : String) (startT endT : Int) (role : String)
    (s : DBState) (e : Event) : Bool :=
  (kw == "" || containsCI e.title kw || containsCI e.description kw)
  && (startT == 0 || decide (startT ≤ e.date))
  && (endT == 0 || decide (e.date ≤ endT))
  && (role == "" || (role == "organizer" && e.organizerID == userID)
      || (role == "attendee" && attendeeOf s e.id userID))

def searchEvents (userID : Nat) (kw : String) (startT endT : Int) (role : String)
    (s : DBState) : List Event :=
  List.insertionSort eventLE (s.events.filter (eventMatches userID kw startT endT role s))

/-- The `JOIN events ON events.id = tasks.event_id` rows (line 616). -/
def joinTasksEvents (s : DBState) : List (Task × Event) :=
  s.tasks.flatMap (fun t => (s.events.filter (fun e => e.id == t.eventID)).map (fun e => (t, e)))

/-- The WHERE clauses of the task query (lines 616-639): keyword over the
task's or the parent event's text, date range and role on the parent event. -/
def taskRowMatches (userID : Nat) (kw : String) (startT endT : Int) (role : String)
    (s : DBState) (p : Task × Event) : Bool :=
  (kw == "" || containsCI p.1.title kw || containsCI p.1.description kw
     || containsCI p.2.title kw || containsCI p.2.description kw)
  && (startT == 0 || decide (startT ≤ p.2.date))
  && (endT == 0 || decide (p.2.date ≤ endT))
  && (role == "" || (role == "organizer" && p.2.organizerID == userID)
      || (role == "attendee" && attendeeOf s p.2.id userID))

/-- Filter, sort by parent-event date, then re-fetch each task's parent event
(lines 649-656), silently skipping a task whose parent cannot be found. -/
def searchTasks (userID : Nat) (kw : String) (startT endT : Int) (role : String)
    (s : DBState) : List (Task × Event) :=
  (List.insertionSort rowLE
      ((joinTasksEvents s).filter (taskRowMatches userID kw startT endT role s))).filterMap
    (fun p => (s.events.find? (fun e => e.id == p.1.eventID)).map (fun e => (p.1, e)))

/-- The effective `type` parameter: empty defaults to `both` (line 536). -/
def searchType (req : SearchRequest) : String :=
  if req.rtype == "" then "both" else req.rtype

/-- Is the `role` parameter present but unrecognised (lines 597-599, 635-637)? -/
def roleBad (req : SearchRequest) : Bool :=
  req.role != "" && req.role != "organizer" && req.role != "attendee"

/-- controllers.go `SearchHandler` (lines 514-660).  Dates accept RFC3339 or
`YYYY-MM-DD`; an empty parameter leaves Go's zero time (here `0`), which
disables the corresponding filter; a present `end_date` has 23h59m59s added
AFTER parsing, whichever of the two layouts matched (lines 553-564).  An
unknown `type` falls through both query blocks.  The role value is only
validated inside a block that runs. -/
def SearchHandler (auth : Option Nat) (req : SearchRequest) (s : DBState) :
    Except (Nat × String) (List SearchResult) :=
  match auth with
  | none => Except.error (401, "unauthorized")
  | some userID =>
    match (if req.startDate == "" then some 0 else parseEventDate req.startDate) with
    | none => Except.error (400, "invalid start_date format")
    | some startT =>
      match (if req.endDate == "" then some (0 : Int)
             else (parseEventDate req.endDate).map (fun t => t + 86399)) with
      | none => Except.error (400, "invalid end_date format")
      | some endT =>
        match (if searchType req == "both" || searchType req == "event" then
                 (if roleBad req then Except.error (400, "role must be organizer or attendee")
                  else Except.ok
                    ((searchEvents userID (goTrimSpace req.keyword) startT endT req.role s).map
                      SearchResult.eventResult))
               else Except.ok ([] : List SearchResult)) with
        | Except.error e => Except.error e
        | Except.ok evRes =>
          match (if searchType req == "both" || searchType req == "task" then
                   (if roleBad req then Except.error (400, "role must be organizer or attendee")
                    else Except.ok
                      ((searchTasks userID (goTrimSpace req.keyword) startT endT req.role s).map
                        (fun p => SearchResult.taskResult p.1 p.2)))
                 else Except.ok ([] : List SearchResult)) with
          | Except.error e => Except.error e
          | Except.ok tkRes => Except.ok (evRes ++ tkRes)

/-! ## Reachable states and the store invariants -/

/-- States reachable from an initial store (arbitrary registered users and
counters, no events/tasks/attendance) through failure-free runs of the
mutating handlers with arbitrary authenticated callers and inputs. -/
inductive Reachable : DBState → Prop where
  | init (users : List User) (ne nt na : Nat) :
      Reachable ⟨users, [], [], [], ne, nt, na⟩
  | stepCreateEvent (uid : Nat) (b : CreateEventRequest) {s : DBState} :
      Reachable s → Reachable (CreateEvent (some uid) (some b) noFailCreate s).2
  | stepInvite (uid : Nat) (idp : String) (target : Nat) {s : DBState} :
      Reachable s → Reachable (InviteUser (some uid) idp (some target) s).2
  | stepRSVP (uid : Nat) (idp : String) (raw : String) {s : DBState} :
      Reachable s → Reachable (SetAttendance (some uid) idp (some raw) s).2
  | stepDelete (uid : Nat) (idp : String) {s : DBState} :
      Reachable s → Reachable (DeleteEvent (some uid) idp noFailDelete s).2
  | stepCreateTask (uid : Nat) (idp : String) (b : CreateTaskRequest) {s : DBState} :
      Reachable s → Reachable (CreateTask (some uid) idp (some b) s).2

/-- The structural invariants the handlers maintain on the store. -/
structure Inv (s : DBState) : Prop where
  eventIdLt : ∀ e ∈ s.events, e.id < s.nextEventID
  eventIdNodup : (s.events.map Event.id).Nodup
  attEventLt : ∀ a ∈ s.attendees, a.eventID < s.nextEventID
  attIdLt : ∀ a ∈ s.attendees, a.id < s.nextAttendeeID
  attIdNodup : (s.attendees.map EventAttendee.id).Nodup
  attPairNodup :
    s.attendees.Pairwise (fun a b => ¬(a.eventID = b.eventID ∧ a.userID = b.userID))
  orgRole : ∀ a ∈ s.attendees, ∀ e ∈ s.events,
    a.eventID = e.id → a.userID = e.organizerID → a.role = "organizer"
  orgRowExists : ∀ e ∈ s.events, ∃ a ∈ s.attendees,
    a.eventID = e.id ∧ a.userID = e.organizerID ∧ a.role = "organizer"
  taskRef : ∀ t ∈ s.tasks, ∃ e ∈ s.events, e.id = t.eventID

lemma mem_append_single {α : Type} {l : List α} {x y : α} (h : x ∈ l ++ [y]) :
    x ∈ l ∨ x = y := by
  rw [List.mem_append, List.mem_singleton] at h
  exact h

lemma nodup_map_append_single {α : Type} (f : α → Nat) {l : List α} {x : α}
    (h : (l.map f).Nodup) (hx : ∀ y ∈ l, f y ≠ f x) : ((l ++ [x]).map f).Nodup := by
  rw [List.map_append, List.map_singleton]
  refine List.Nodup.append h (List.nodup_singleton _) ?_
  intro a ha hb
  rw [List.mem_singleton] at hb
  obtain ⟨y, hy, rfl⟩ := List.mem_map.mp ha
  exact hx y hy hb

lemma pairwise_append_single {α : Type} {R : α → α → Prop} {l : List α} {x : α}
    (h : l.Pairwise R) (hx : ∀ y ∈ l, R y x) : (l ++ [x]).Pairwise R := by
  rw [List.pairwise_append]
  refine ⟨h, List.pairwise_singleton R x, ?_⟩
  intro a ha b hb
  rw [List.mem_singleton] at hb
  subst hb
  exact hx a ha

lemma map_map_congr {α β : Type} (g : α → β) (f : α → α) :
    ∀ l : List α, (∀ a ∈ l, g (f a) = g a) → (l.map f).map g = l.map g
  | [], _ => rfl
  | a :: t, hf => by
    simp only [List.map_cons]
    rw [hf a (List.mem_cons_self a t),
      map_map_congr g f t (fun x hx => hf x (List.mem_cons_of_mem a hx))]

/-- Among events with pairwise distinct ids, two members with the same id
are the same event. -/
lemma event_id_inj {s : DBState} (h : Inv s) {e e' : Event}
    (he : e ∈ s.events) (he' : e' ∈ s.events) (hid : e.id = e'.id) : e = e' :=
  List.inj_on_of_nodup_map h.eventIdNodup he he' hid

lemma inv_createEvent (uid : Nat) (b : CreateEventRequest) (s : DBState) (h : Inv s) :
    Inv (CreateEvent (some uid) (some b) noFailCreate s).2 := by
  unfold CreateEvent
  cases hbt : (b.title == "" || b.date == "") with
  | true => simp only [hbt]; exact h
  | false =>
    simp only [hbt]
    cases hpd : parseEventDate b.date with
    | none => exact h
    | some d =>
      unfold organizerRowHook
      have hnone :
          (s.attendees.find? (fun a => a.eventID == s.nextEventID && a.userID == uid)) =
            none := by
        refine List.find?_eq_none.mpr ?_
        intro a ha
        simp only [Bool.and_eq_true, beq_iff_eq, not_and]
        intro hae
        exact absurd hae (Nat.ne_of_lt (h.attEventLt a ha))
      simp only [noFailCreate, Bool.false_eq_true, if_false]
      rw [show ({ s with
            events := s.events ++
              [⟨s.nextEventID, goTrimSpace b.title, b.description, b.location, d, uid⟩],
            nextEventID := s.nextEventID + 1 } : DBState).attendees = s.attendees from rfl,
          hnone]
      refine ⟨?_, ?_, ?_, ?_, ?_, ?_, ?_, ?_, ?_⟩
      · intro e he
        rcases mem_append_single he with he' | rfl
        · exact Nat.lt_succ_of_lt (h.eventIdLt e he')
        · exact Nat.lt_succ_self _
      · exact nodup_map_append_single Event.id h.eventIdNodup
          (fun y hy => Nat.ne_of_lt (h.eventIdLt y hy))
      · intro a ha
        rcases mem_append_single ha with ha' | rfl
        · exact Nat.lt_succ_of_lt (h.attEventLt a ha')
        · exact Nat.lt_succ_self _
      · intro a ha
        rcases mem_append_single ha with ha' | rfl
        · exact Nat.lt_succ_of_lt (h.attIdLt a ha')
        · exact Nat.lt_succ_self _
      · exact nodup_map_append_single EventAttendee.id h.attIdNodup
          (fun y hy => Nat.ne_of_lt (h.attIdLt y hy))
      · refine pairwise_append_single h.attPairNodup ?_
        intro y hy hc
        exact absurd hc.1 (Nat.ne_of_lt (h.attEventLt y hy))
      · intro a ha e he h1 h2
        rcases mem_append_single ha with ha' | rfl
        · rcases mem_append_single he with he' | rfl
          · exact h.orgRole a ha' e he' h1 h2
          · exact absurd h1 (Nat.ne_of_lt (h.attEventLt a ha'))
        · rcases mem_append_single he with he' | rfl
          · have h1' : s.nextEventID = e.id := h1
            exact absurd h1'.symm (Nat.ne_of_lt (h.eventIdLt e he'))
          · rfl
      · intro e he
        rcases mem_append_single he with he' | rfl
        · obtain ⟨a, ha, p1, p2, p3⟩ := h.orgRowExists e he'
          exact ⟨a, List.mem_append_left _ ha, p1, p2, p3⟩
        · exact ⟨⟨s.nextAttendeeID, s.nextEventID, uid, "organizer", ""⟩,
            List.mem_append_right _ (List.mem_singleton_self _), rfl, rfl, rfl⟩
      · intro t ht
        obtain ⟨e, he, hid⟩ := h.taskRef t ht
        exact ⟨e, List.mem_append_left _ he, hid⟩

lemma inv_invite (uid : Nat) (idp : String) (target : Nat) (s : DBState) (h : Inv s) :
    Inv (InviteUser (some uid) idp (some target) s).2 := by
  unfold InviteUser
  cases hp : parseUint64 idp with
  | none => exact h
  | some eventID =>
    cases ht : (target == 0) with
    | true => simp only [ht]; exact h
    | false =>
      simp only [ht]
      cases hev : s.events.find? (fun e => e.id == eventID) with
      | none => exact h
      | some ev =>
        cases horg : (ev.organizerID != uid) with
        | true => simp only [horg]; exact h
        | false =>
          simp only [horg]
          cases hu : s.users.find? (fun u => u.id == target) with
          | none => exact h
          | some invitee =>
            cases hio : (invitee.id == ev.organizerID) with
            | true => simp only [hio]; exact h
            | false =>
              simp only [hio]
              cases hex : s.attendees.find?
                  (fun a => a.eventID == eventID && a.userID == invitee.id) with
              | some x => exact h
              | none =>
                have hevmem : ev ∈ s.events := List.mem_of_find?_eq_some hev
                have hevid : ev.id = eventID := by
                  have := List.find?_some hev
                  simpa using this
                have hio' : invitee.id ≠ ev.organizerID := by simpa using hio
                have hex' : ∀ a ∈ s.attendees,
                    ¬(a.eventID = eventID ∧ a.userID = invitee.id) := by
                  intro a ha
                  have := List.find?_eq_none.mp hex a ha
                  simpa using this
                refine ⟨h.eventIdLt, h.eventIdNodup, ?_, ?_, ?_, ?_, ?_, ?_, h.taskRef⟩
                · intro a ha
                  rcases mem_append_single ha with ha' | rfl
                  · exact h.attEventLt a ha'
                  · show eventID < s.nextEventID
                    rw [← hevid]
                    exact h.eventIdLt ev hevmem
                · intro a ha
                  rcases mem_append_single ha with ha' | rfl
                  · exact Nat.lt_succ_of_lt (h.attIdLt a ha')
                  · exact Nat.lt_succ_self _
                · exact nodup_map_append_single EventAttendee.id h.attIdNodup
                    (fun y hy => Nat.ne_of_lt (h.attIdLt y hy))
                · exact pairwise_append_single h.attPairNodup (fun y hy => hex' y hy)
                · intro a ha e he h1 h2
                  rcases mem_append_single ha with ha' | rfl
                  · exact h.orgRole a ha' e he h1 h2
                  · exfalso
                    have h1' : eventID = e.id := h1
                    have h2' : invitee.id = e.organizerID := h2
                    have he2 : e = ev :=
                      event_id_inj h he hevmem (h1'.symm.trans hevid.symm)
                    exact hio' (he2 ▸ h2')
                · intro e he
                  obtain ⟨a, ha, p1, p2, p3⟩ := h.orgRowExists e he
                  exact ⟨a, List.mem_append_left _ ha, p1, p2, p3⟩

lemma inv_rsvp (uid : Nat) (idp : String) (raw : String) (s : DBState) (h : Inv s) :
    Inv (SetAttendance (some uid) idp (some raw) s).2 := by
  unfold SetAttendance
  cases hp : parseUint64 idp with
  | none => exact h
  | some eventID =>
    cases hr : (raw == "") with
    | true => simp only [hr]; exact h
    | false =>
      simp only [hr]
      cases hv : (normalizeStatus raw != "Going" && normalizeStatus raw != "Maybe" &&
          normalizeStatus raw != "Not Going") with
      | true => first | exact h | (simp only [hv]; exact h)
      | false =>
        try simp only [hv]
        try simp only [Bool.false_eq_true, if_false]
        cases hevf : s.events.find? (fun e => e.id == eventID) with
        | none => exact h
        | some ev =>
          have hevmem : ev ∈ s.events := List.mem_of_find?_eq_some hevf
          have hevid : ev.id = eventID := by
            have := List.find?_some hevf
            simpa using this
          cases hex : s.attendees.find?
              (fun a => a.eventID == eventID && a.userID == uid) with
          | none =>
            have hex' : ∀ a ∈ s.attendees, ¬(a.eventID = eventID ∧ a.userID = uid) := by
              intro a ha
              have := List.find?_eq_none.mp hex a ha
              simpa using this
            refine ⟨h.eventIdLt, h.eventIdNodup, ?_, ?_, ?_, ?_, ?_, ?_, h.taskRef⟩
            · intro a ha
              rcases mem_append_single ha with ha' | rfl
              · exact h.attEventLt a ha'
              · show eventID < s.nextEventID
                rw [← hevid]
                exact h.eventIdLt ev hevmem
            · intro a ha
              rcases mem_append_single ha with ha' | rfl
              · exact Nat.lt_succ_of_lt (h.attIdLt a ha')
              · exact Nat.lt_succ_self _
            · exact nodup_map_append_single EventAttendee.id h.attIdNodup
                (fun y hy => Nat.ne_of_lt (h.attIdLt y hy))
            · exact pairwise_append_single h.attPairNodup (fun y hy => hex' y hy)
            · intro a ha e he h1 h2
              rcases mem_append_single ha with ha' | rfl
              · exact h.orgRole a ha' e he h1 h2
              · exfalso
                have h1' : eventID = e.id := h1
                have h2' : uid = e.organizerID := h2
                have he2 : e = ev := event_id_inj h he hevmem (h1'.symm.trans hevid.symm)
                obtain ⟨r, hr', q1, q2, q3⟩ := h.orgRowExists ev hevmem
                refine hex' r hr' ⟨?_, ?_⟩
                · rw [q1, hevid]
                · rw [q2, ← he2, ← h2']
            · intro e he
              obtain ⟨a, ha, p1, p2, p3⟩ := h.orgRowExists e he
              exact ⟨a, List.mem_append_left _ ha, p1, p2, p3⟩
          | some att =>
            have hattmem : att ∈ s.attendees := List.mem_of_find?_eq_some hex
            have hfields : ∀ a ∈ s.attendees,
                ((if (a.id == att.id) = true
                  then { att with status := normalizeStatus raw } else a) :
                    EventAttendee).id = a.id ∧
                ((if (a.id == att.id) = true
                  then { att with status := normalizeStatus raw } else a) :
                    EventAttendee).eventID = a.eventID ∧
                ((if (a.id == att.id) = true
                  then { att with status := normalizeStatus raw } else a) :
                    EventAttendee).userID = a.userID ∧
                ((if (a.id == att.id) = true
                  then { att with status := normalizeStatus raw } else a) :
                    EventAttendee).role = a.role := by
              intro a ha
              by_cases hid : a.id = att.id
              · have haeq : a = att :=
                  List.inj_on_of_nodup_map h.attIdNodup ha hattmem hid
                subst haeq
                simp
              · have hid' : (a.id == att.id) = false := by simpa using hid
                simp [hid']
            refine ⟨h.eventIdLt, h.eventIdNodup, ?_, ?_, ?_, ?_, ?_, ?_, h.taskRef⟩
            · intro x hx
              obtain ⟨a, ha, rfl⟩ := List.mem_map.mp hx
              rw [(hfields a ha).2.1]
              exact h.attEventLt a ha
            · intro x hx
              obtain ⟨a, ha, rfl⟩ := List.mem_map.mp hx
              rw [(hfields a ha).1]
              exact h.attIdLt a ha
            · rw [map_map_congr EventAttendee.id _ s.attendees (fun a ha => (hfields a ha).1)]
              exact h.attIdNodup
            · rw [List.pairwise_map]
              refine h.attPairNodup.imp_of_mem ?_
              intro a b ha hb hR hc
              refine hR ⟨?_, ?_⟩
              · rw [← (hfields a ha).2.1, ← (hfields b hb).2.1]
                exact hc.1
              · rw [← (hfields a ha).2.2.1, ← (hfields b hb).2.2.1]
                exact hc.2
            · intro x hx e he h1 h2
              obtain ⟨a, ha, rfl⟩ := List.mem_map.mp hx
              rw [(hfields a ha).2.2.2]
              refine h.orgRole a ha e he ?_ ?_
              · rw [← (hfields a ha).2.1]
                exact h1
              · rw [← (hfields a ha).2.2.1]
                exact h2
            · intro e he
              obtain ⟨a, ha, p1, p2, p3⟩ := h.orgRowExists e he
              refine ⟨(if (a.id == att.id) = true
                  then { att with status := normalizeStatus raw } else a),
                List.mem_map_of_mem _ ha, ?_, ?_, ?_⟩
              · rw [(hfields a ha).2.1]
                exact p1
              · rw [(hfields a ha).2.2.1]
                exact p2
              · rw [(hfields a ha).2.2.2]
                exact p3

lemma inv_delete (uid : Nat) (idp : String) (s : DBState) (h : Inv s) :
    Inv (DeleteEvent (some uid) idp noFailDelete s).2 := by
  unfold DeleteEvent
  cases hip : (idp == "") with
  | true => first | exact h | (simp only [hip]; exact h)
  | false =>
    try simp only [hip]
    try simp only [Bool.false_eq_true, if_false]
    cases hp : parseAtoi idp with
    | none => exact h
    | some idv =>
      dsimp only
      cases hev : s.events.find? (fun e => Int.ofNat e.id == idv) with
      | none => exact h
      | some ev =>
        dsimp only
        cases horg : (ev.organizerID != uid) with
        | true => first | exact h | (simp only [horg]; exact h)
        | false =>
          try simp only [horg]
          try simp only [Bool.false_eq_true, if_false]
          unfold deleteTx
          simp only [noFailDelete, Bool.false_eq_true, if_false]
          refine ⟨?_, ?_, ?_, ?_, ?_, ?_, ?_, ?_, ?_⟩
          · intro e he
            exact h.eventIdLt e (List.mem_of_mem_filter he)
          · exact List.Nodup.sublist ((List.filter_sublist _).map Event.id) h.eventIdNodup
          · intro a ha
            exact h.attEventLt a (List.mem_of_mem_filter ha)
          · intro a ha
            exact h.attIdLt a (List.mem_of_mem_filter ha)
          · exact List.Nodup.sublist
              ((List.filter_sublist _).map EventAttendee.id) h.attIdNodup
          · exact h.attPairNodup.sublist (List.filter_sublist _)
          · intro a ha e he h1 h2
            exact h.orgRole a (List.mem_of_mem_filter ha) e (List.mem_of_mem_filter he) h1 h2
          · intro e he
            have hemem := List.mem_of_mem_filter he
            have hene : (e.id != ev.id) = true := (List.mem_filter.mp he).2
            obtain ⟨a, ha, p1, p2, p3⟩ := h.orgRowExists e hemem
            refine ⟨a, List.mem_filter.mpr ⟨ha, ?_⟩, p1, p2, p3⟩
            rw [p1]
            exact hene
          · intro t ht
            have htm := List.mem_of_mem_filter ht
            have htne : (t.eventID != ev.id) = true := (List.mem_filter.mp ht).2
            obtain ⟨e, he, hid⟩ := h.taskRef t htm
            refine ⟨e, List.mem_filter.mpr ⟨he, ?_⟩, hid⟩
            rw [hid]
            exact htne

lemma inv_createTask (uid : Nat) (idp : String) (b : CreateTaskRequest) (s : DBState)
    (h : Inv s) : Inv (CreateTask (some uid) idp (some b) s).2 := by
  unfold CreateTask
  cases hp : parseUint64 idp with
  | none => exact h
  | some eventID =>
    dsimp only
    cases hev : s.events.find? (fun e => e.id == eventID) with
    | none => exact h
    | some ev =>
      dsimp only
      cases horg : (ev.organizerID != uid) with
      | true => first | exact h | (simp only [horg]; exact h)
      | false =>
        try simp only [horg]
        try simp only [Bool.false_eq_true, if_false]
        cases hbt : (b.title == "") with
        | true => first | exact h | (simp only [hbt]; exact h)
        | false =>
          try simp only [hbt]
          try simp only [Bool.false_eq_true, if_false]
          have hevmem : ev ∈ s.events := List.mem_of_find?_eq_some hev
          have hevid : ev.id = eventID := by
            have := List.find?_some hev
            simpa using this
          refine ⟨h.eventIdLt, h.eventIdNodup, h.attEventLt, h.attIdLt, h.attIdNodup,
            h.attPairNodup, h.orgRole, h.orgRowExists, ?_⟩
          intro t ht
          rcases mem_append_single ht with ht' | rfl
          · exact h.taskRef t ht'
          · exact ⟨ev, hevmem, hevid⟩

/-- Every reachable state satisfies the store invariants. -/
lemma reachable_inv {s : DBState} (h : Reachable s) : Inv s := by
  induction h with
  | init users ne nt na =>
    exact ⟨by simp, by simp, by simp, by simp, by simp, by simp, by simp, by simp, by simp⟩
  | stepCreateEvent uid b _ ih => exact inv_createEvent uid b _ ih
  | stepInvite uid idp target _ ih => exact inv_invite uid idp target _ ih
  | stepRSVP uid idp raw _ ih => exact inv_rsvp uid idp raw _ ih
  | stepDelete uid idp _ ih => exact inv_delete uid idp _ ih
  | stepCreateTask uid idp b _ ih => exact inv_createTask uid idp b _ ih

/-- `SetAttendance` preserves the identity, event, user and role of every
row already in the store: it only overwrites a status or appends a fresh
attendee row. -/
lemma setAttendance_preserves_rows (auth : Option Nat) (idp : String) (body : Option String)
    (s : DBState) (hnd : (s.attendees.map EventAttendee.id).Nodup) :
    ∀ a ∈ s.attendees, ∃ a' ∈ (SetAttendance auth idp body s).2.attendees,
      a'.id = a.id ∧ a'.eventID = a.eventID ∧ a'.userID = a.userID ∧ a'.role = a.role := by
  unfold SetAttendance
  cases auth with
  | none => intro a ha; exact ⟨a, ha, rfl, rfl, rfl, rfl⟩
  | some uid =>
    cases hp : parseUint64 idp with
    | none => intro a ha; exact ⟨a, ha, rfl, rfl, rfl, rfl⟩
    | some eventID =>
      dsimp only
      cases body with
      | none => intro a ha; exact ⟨a, ha, rfl, rfl, rfl, rfl⟩
      | some raw =>
        cases hr : (raw == "") with
        | true =>
          try simp only [hr]
          intro a ha; exact ⟨a, ha, rfl, rfl, rfl, rfl⟩
        | false =>
          try simp only [hr]
          try simp only [Bool.false_eq_true, if_false]
          cases hv : (normalizeStatus raw != "Going" && normalizeStatus raw != "Maybe" &&
              normalizeStatus raw != "Not Going") with
          | true =>
            try simp only [hv]
            intro a ha; exact ⟨a, ha, rfl, rfl, rfl, rfl⟩
          | false =>
            try simp only [hv]
            try simp only [Bool.false_eq_true, if_false]
            cases hevf : s.events.find? (fun e => e.id == eventID) with
            | none => intro a ha; exact ⟨a, ha, rfl, rfl, rfl, rfl⟩
            | some ev =>
              dsimp only
              cases hex : s.attendees.find?
                  (fun a => a.eventID == eventID && a.userID == uid) with
              | none =>
                intro a ha
                exact ⟨a, List.mem_append_left _ ha, rfl, rfl, rfl, rfl⟩
              | some att =>
                have hattmem : att ∈ s.attendees := List.mem_of_find?_eq_some hex
                intro a ha
                refine ⟨(if (a.id == att.id) = true
                    then { att with status := normalizeStatus raw } else a),
                  List.mem_map_of_mem _ ha, ?_, ?_, ?_, ?_⟩ <;>
                · by_cases hid : a.id = att.id
                  · have haeq : a = att :=
                      List.inj_on_of_nodup_map hnd ha hattmem hid
                    subst haeq
                    simp
                  · have hid' : (a.id == att.id) = false := by simpa using hid
                    simp [hid']

/-! ## Scenario states for witnesses and counterexamples -/

/-- One registered user; that user creates an event and then RSVPs "going"
on their own event. -/
def c1state : DBState :=
  (SetAttendance (some 1) "1" (some "going")
    (CreateEvent (some 1) (some ⟨"T", "", "", "2024-06-01"⟩) noFailCreate
      ⟨[⟨1, "a"⟩], [], [], [], 1, 1, 1⟩).2).2

lemma c1state_reachable : Reachable c1state :=
  Reachable.stepRSVP 1 "1" "going"
    (Reachable.stepCreateEvent 1 ⟨"T", "", "", "2024-06-01"⟩
      (Reachable.init [⟨1, "a"⟩] 1 1 1))

/-- Two registered users; user 1 creates an event and invites user 2. -/
def c2state : DBState :=
  (InviteUser (some 1) "1" (some 2)
    (CreateEvent (some 1) (some ⟨"T", "", "", "2024-06-01"⟩) noFailCreate
      ⟨[⟨1, "a"⟩, ⟨2, "b"⟩], [], [], [], 1, 1, 1⟩).2).2

lemma c2state_reachable : Reachable c2state :=
  Reachable.stepInvite 1 "1" 2
    (Reachable.stepCreateEvent 1 ⟨"T", "", "", "2024-06-01"⟩
      (Reachable.init [⟨1, "a"⟩, ⟨2, "b"⟩] 1 1 1))

/-! ## C1 -/

/-- C1 (corrected).  In every state reachable through failure-free runs of
the public operations, an Attendance row whose user is the event's
organizer carries role "organizer", and a SetAttendance call preserves the
identity, event, user and role of every pre-existing row (it can only
overwrite a status or append a new attendee row).  The original claim's
stronger assertion — that the organizer row's status is always empty and
that an organizer's own RSVP never alters that row — is refuted by
`c1_counterexample`: the organizer's RSVP overwrites the row's status. -/
theorem c1_organizer_row_role (s : DBState) (hs : Reachable s) :
    (∀ a ∈ s.attendees, ∀ e ∈ s.events,
       a.eventID = e.id → a.userID = e.organizerID → a.role = "organizer")
    ∧ (∀ auth idp body, ∀ a ∈ s.attendees,
        ∃ a' ∈ (SetAttendance auth idp body s).2.attendees,
          a'.id = a.id ∧ a'.eventID = a.eventID ∧ a'.userID = a.userID ∧ a'.role = a.role) := by
  have hinv := reachable_inv hs
  exact ⟨hinv.orgRole,
    fun auth idp body => setAttendance_preserves_rows auth idp body s hinv.attIdNodup⟩

/-- Witness for C1 at a concrete reachable state. -/
theorem c1_witness :
    (⟨1, 1, 1, "organizer", "Going"⟩ : EventAttendee).role = "organizer" :=
  (c1_organizer_row_role c1state c1state_reachable).1
    ⟨1, 1, 1, "organizer", "Going"⟩ (by decide)
    ⟨1, "T", "", "", 63852796800, 1⟩ (by decide) rfl rfl

/-- Counterexample to C1 as stated: in the reachable state where the
organizer of event 1 has RSVPed "going" on their own event, the organizer's
Attendance row carries status "Going", not the empty status — the RSVP did
alter the organizer's row. -/
theorem c1_counterexample :
    Reachable c1state
    ∧ c1state.events.map Event.id = [1]
    ∧ c1state.events.map Event.organizerID = [1]
    ∧ c1state.attendees = [⟨1, 1, 1, "organizer", "Going"⟩]
    ∧ ("Going" : String) ≠ "" :=
  ⟨c1state_reachable, by decide, by decide, by decide, by decide⟩

/-! ## C2 -/

lemma filter_pair_length_one {l : List EventAttendee} {eid uidv : Nat}
    (hpw : l.Pairwise (fun a b => ¬(a.eventID = b.eventID ∧ a.userID = b.userID)))
    (hex : ∃ a ∈ l, a.eventID = eid ∧ a.userID = uidv) :
    (l.filter (fun a => a.eventID == eid && a.userID == uidv)).length = 1 := by
  induction l with
  | nil =>
    obtain ⟨a, ha, _⟩ := hex
    exact absurd ha (List.not_mem_nil a)
  | cons x t ih =>
    rw [List.pairwise_cons] at hpw
    cases hx : (x.eventID == eid && x.userID == uidv) with
    | true =>
      have hxe : x.eventID = eid ∧ x.userID = uidv := by simpa using hx
      have htail : t.filter (fun a => a.eventID == eid && a.userID == uidv) = [] := by
        refine List.filter_eq_nil_iff.mpr ?_
        intro a ha
        have hne := hpw.1 a ha
        simp only [Bool.and_eq_true, beq_iff_eq, not_and]
        intro h1 h2
        exact hne ⟨hxe.1.trans h1.symm, hxe.2.trans h2.symm⟩
      simp only [List.filter_cons, hx, if_true, htail, List.length_singleton]
    | false =>
      have hxf : ¬(x.eventID = eid ∧ x.userID = uidv) := by
        intro hc
        rw [hc.1, hc.2] at hx
        simp at hx
      simp only [List.filter_cons, hx, Bool.false_eq_true, if_false]
      refine ih hpw.2 ?_
      obtain ⟨a, ha, hc⟩ := hex
      rcases List.mem_cons.mp ha with rfl | hat
      · exact absurd hc hxf
      · exact ⟨a, hat, hc⟩

/-- C2 (confirmed).  If an Attendance row for (event, target user) already
exists in a reachable state, a further Invite by the organizer succeeds
with the "already invited or participant" signal, creates no row and
changes no row (the state is returned unchanged), and exactly one
Attendance row for the pair exists afterwards. -/
theorem c2_invite_idempotent (s : DBState) (hs : Reachable s) (actor target : Nat)
    (idp : String) (eid : Nat) (hparse : parseUint64 idp = some eid) (htz : target ≠ 0)
    (ev : Event) (hev : s.events.find? (fun e => e.id == eid) = some ev)
    (horg : ev.organizerID = actor)
    (tu : User) (htu : s.users.find? (fun u => u.id == target) = some tu)
    (hno : tu.id ≠ ev.organizerID)
    (hexist : ∃ a ∈ s.attendees, a.eventID = eid ∧ a.userID = tu.id) :
    InviteUser (some actor) idp (some target) s =
      (HResp.ok 200 "user already invited or participant", s)
    ∧ (s.attendees.filter (fun a => a.eventID == eid && a.userID == tu.id)).length = 1 := by
  have hinv := reachable_inv hs
  constructor
  · unfold InviteUser
    rw [hparse]
    dsimp only
    have htz' : (target == 0) = false := by simpa using htz
    simp only [htz', Bool.false_eq_true, if_false]
    rw [hev]
    dsimp only
    have horg' : (ev.organizerID != actor) = false := by simp [horg]
    simp only [horg', Bool.false_eq_true, if_false]
    rw [htu]
    dsimp only
    have hno' : (tu.id == ev.organizerID) = false := by simpa using hno
    simp only [hno', Bool.false_eq_true, if_false]
    have hfind :
        (s.attendees.find? (fun a => a.eventID == eid && a.userID == tu.id)).isSome := by
      rw [List.find?_isSome]
      obtain ⟨a, ha, h1, h2⟩ := hexist
      exact ⟨a, ha, by simp [h1, h2]⟩
    obtain ⟨row, hrow⟩ := Option.isSome_iff_exists.mp hfind
    rw [hrow]
  · exact filter_pair_length_one hinv.attPairNodup hexist

/-- Witness for C2: inviting user 2 a second time is a no-op success and
exactly one row for the pair remains. -/
theorem c2_witness :
    InviteUser (some 1) "1" (some 2) c2state =
      (HResp.ok 200 "user already invited or participant", c2state)
    ∧ (c2state.attendees.filter (fun a => a.eventID == 1 && a.userID == 2)).length = 1 :=
  c2_invite_idempotent c2state c2state_reachable 1 2 "1" 1 (by decide) (by decide)
    ⟨1, "T", "", "", 63852796800, 1⟩ (by decide) rfl
    ⟨2, "b"⟩ (by decide) (by decide)
    ⟨⟨2, 1, 2, "attendee", ""⟩, by decide, rfl, rfl⟩

/-! ## C3 -/

/-- C3 (confirmed).  DeleteEvent requested by the event's organizer runs its
three deletes as one all-or-nothing transaction: with no storage failure it
removes the event, every Task and every Attendance row referencing it (and
nothing else — the surviving tables are exactly the filtered originals);
with any of the three deletes failing the whole state is unchanged and an
error is reported. -/
theorem c3_delete_cascade_atomic (actor : Nat) (idp : String) (orc : DeleteOracle)
    (s : DBState) (idv : Int) (hne : idp ≠ "") (hparse : parseAtoi idp = some idv)
    (ev : Event) (hfind : s.events.find? (fun e => Int.ofNat e.id == idv) = some ev)
    (horg : ev.organizerID = actor) :
    ((orc.failAttendees = false ∧ orc.failTasks = false ∧ orc.failEvent = false) →
       DeleteEvent (some actor) idp orc s =
         (HResp.ok 200 "event deleted",
          { s with
            events := s.events.filter (fun e => e.id != ev.id),
            tasks := s.tasks.filter (fun t => t.eventID != ev.id),
            attendees := s.attendees.filter (fun a => a.eventID != ev.id) })
       ∧ (∀ e ∈ s.events.filter (fun e => e.id != ev.id), e.id ≠ ev.id)
       ∧ (∀ t ∈ s.tasks.filter (fun t => t.eventID != ev.id), t.eventID ≠ ev.id)
       ∧ (∀ a ∈ s.attendees.filter (fun a => a.eventID != ev.id), a.eventID ≠ ev.id))
    ∧ ((orc.failAttendees = true ∨ orc.failTasks = true ∨ orc.failEvent = true) →
       DeleteEvent (some actor) idp orc s = (HResp.err 500 "delete failed", s)) := by
  have hne' : (idp == "") = false := by simpa using hne
  have horg' : (ev.organizerID != actor) = false := by simp [horg]
  have hcommon : ∀ orc2 : DeleteOracle,
      DeleteEvent (some actor) idp orc2 s =
        match deleteTx orc2 ev.id s with
        | none => (HResp.err 500 "delete failed", s)
        | some s2 => (HResp.ok 200 "event deleted", s2) := by
    intro orc2
    unfold DeleteEvent
    simp only [hne', Bool.false_eq_true, if_false]
    rw [hparse]
    dsimp only
    rw [hfind]
    dsimp only
    simp only [horg', Bool.false_eq_true, if_false]
  constructor
  · rintro ⟨h1, h2, h3⟩
    rcases orc with ⟨fa, ft, fe⟩
    simp only at h1 h2 h3
    cases h1; cases h2; cases h3
    rw [hcommon]
    refine ⟨rfl, ?_, ?_, ?_⟩
    · intro e he
      have := (List.mem_filter.mp he).2
      simpa using this
    · intro t htm
      have := (List.mem_filter.mp htm).2
      simpa using this
    · intro a ha
      have := (List.mem_filter.mp ha).2
      simpa using this
  · intro hf
    rcases orc with ⟨fa, ft, fe⟩
    rw [hcommon]
    cases fa <;> cases ft <;> cases fe
    · exfalso
      rcases hf with h | h | h <;> exact Bool.false_ne_true h
    all_goals rfl

/-- A four-row store for the C3 witness: one organizer, one event with one
task and one attendance row. -/
def c3state : DBState :=
  ⟨[⟨7, "o"⟩], [⟨1, "E", "", "", 0, 7⟩], [⟨1, 1, "t", ""⟩], [⟨1, 1, 7, "organizer", ""⟩], 2, 2, 2⟩

/-- Witness for C3: the same delete, once failure-free (full cascade) and
once with the attendance delete failing (state unchanged). -/
theorem c3_witness :
    DeleteEvent (some 7) "1" noFailDelete c3state =
      (HResp.ok 200 "event deleted", ⟨[⟨7, "o"⟩], [], [], [], 2, 2, 2⟩)
    ∧ DeleteEvent (some 7) "1" ⟨true, false, false⟩ c3state =
      (HResp.err 500 "delete failed", c3state) :=
  ⟨((c3_delete_cascade_atomic 7 "1" noFailDelete c3state 1 (by decide) (by decide)
      ⟨1, "E", "", "", 0, 7⟩ (by decide) rfl).1 ⟨rfl, rfl, rfl⟩).1,
   (c3_delete_cascade_atomic 7 "1" ⟨true, false, false⟩ c3state 1 (by decide) (by decide)
      ⟨1, "E", "", "", 0, 7⟩ (by decide) rfl).2 (Or.inl rfl)⟩

/-! ## C4 -/

/-- C4 (corrected).  CreateEvent writes the Event row first; only that write
is checked.  The organizer-attendance write that follows is attempted but
its failure is silently ignored (controllers.go line 99), so the two writes
are not atomic: when the event write fails nothing is created and an error
is reported, when both writes succeed the event and the organizer row
(role "organizer", empty status) both exist, but when only the attendance
write fails CreateEvent still reports success and the event exists with no
organizer Attendance row. -/
theorem c4_createEvent_not_atomic (actor : Nat) (b : CreateEventRequest) (orc : CreateOracle)
    (s : DBState) (dv : Int) (ht : b.title ≠ "") (hd : b.date ≠ "")
    (hp : parseEventDate b.date = some dv)
    (hfresh : ∀ a ∈ s.attendees, a.eventID ≠ s.nextEventID) :
    (orc.failEvent = true →
       CreateEvent (some actor) (some b) orc s = (HResp.err 500 "could not create event", s))
    ∧ (orc.failEvent = false → orc.failAttendee = false →
       CreateEvent (some actor) (some b) orc s =
         (HResp.ok 201 "created",
          { s with
            events := s.events ++
              [⟨s.nextEventID, goTrimSpace b.title, b.description, b.location, dv, actor⟩],
            nextEventID := s.nextEventID + 1,
            attendees := s.attendees ++ [⟨s.nextAttendeeID, s.nextEventID, actor, "organizer", ""⟩],
            nextAttendeeID := s.nextAttendeeID + 1 }))
    ∧ (orc.failEvent = false → orc.failAttendee = true →
       CreateEvent (some actor) (some b) orc s =
         (HResp.ok 201 "created",
          { s with
            events := s.events ++
              [⟨s.nextEventID, goTrimSpace b.title, b.description, b.location, dv, actor⟩],
            nextEventID := s.nextEventID + 1 })) := by
  have hbt : (b.title == "" || b.date == "") = false := by
    simp only [Bool.or_eq_false_iff]
    constructor
    · simpa using ht
    · simpa using hd
  have hnone :
      (s.attendees.find? (fun a => a.eventID == s.nextEventID && a.userID == actor)) = none := by
    refine List.find?_eq_none.mpr ?_
    intro a ha
    simp only [Bool.and_eq_true, beq_iff_eq, not_and]
    intro hae
    exact absurd hae (hfresh a ha)
  refine ⟨?_, ?_, ?_⟩
  · intro h1
    rcases orc with ⟨oe, oa⟩
    simp only at h1
    cases h1
    unfold CreateEvent
    simp only [hbt, Bool.false_eq_true, if_false]
    rw [hp]
    rfl
  · intro h1 h2
    rcases orc with ⟨oe, oa⟩
    simp only at h1 h2
    cases h1; cases h2
    unfold CreateEvent
    simp only [hbt, Bool.false_eq_true, if_false]
    rw [hp]
    dsimp only
    unfold organizerRowHook
    dsimp only
    rw [hnone]
    rfl
  · intro h1 h2
    rcases orc with ⟨oe, oa⟩
    simp only at h1 h2
    cases h1; cases h2
    unfold CreateEvent
    simp only [hbt, Bool.false_eq_true, if_false]
    rw [hp]
    dsimp only
    unfold organizerRowHook
    dsimp only
    rw [hnone]
    rfl

/-- A one-user store for the C4 scenario. -/
def c4state : DBState := ⟨[⟨1, "a"⟩], [], [], [], 1, 1, 1⟩

/-- Witness for C4 at a concrete input, exercising all three oracle cases. -/
theorem c4_witness :
    CreateEvent (some 1) (some ⟨"T", "", "", "2024-06-01"⟩) ⟨true, false⟩ c4state =
      (HResp.err 500 "could not create event", c4state)
    ∧ CreateEvent (some 1) (some ⟨"T", "", "", "2024-06-01"⟩) noFailCreate c4state =
      (HResp.ok 201 "created",
       ⟨[⟨1, "a"⟩], [⟨1, "T", "", "", 63852796800, 1⟩], [], [⟨1, 1, 1, "organizer", ""⟩], 2, 1, 2⟩)
    ∧ CreateEvent (some 1) (some ⟨"T", "", "", "2024-06-01"⟩) ⟨false, true⟩ c4state =
      (HResp.ok 201 "created",
       ⟨[⟨1, "a"⟩], [⟨1, "T", "", "", 63852796800, 1⟩], [], [], 2, 1, 1⟩) :=
  ⟨(c4_createEvent_not_atomic 1 ⟨"T", "", "", "2024-06-01"⟩ ⟨true, false⟩ c4state
      63852796800 (by decide) (by decide) (by decide) (by decide)).1 rfl,
   ((c4_createEvent_not_atomic 1 ⟨"T", "", "", "2024-06-01"⟩ noFailCreate c4state
      63852796800 (by decide) (by decide) (by decide) (by decide)).2.1 rfl rfl),
   ((c4_createEvent_not_atomic 1 ⟨"T", "", "", "2024-06-01"⟩ ⟨false, true⟩ c4state
      63852796800 (by decide) (by decide) (by decide) (by decide)).2.2 rfl rfl)⟩

/-- Counterexample to C4 as stated: with the event write succeeding and the
attendance write failing, CreateEvent reports success (201) yet no
Attendance row exists while the Event row does — the two writes were not
atomic and success does not imply the organizer row exists. -/
theorem c4_counterexample :
    (CreateEvent (some 1) (some ⟨"T", "", "", "2024-06-01"⟩) ⟨false, true⟩ c4state).1 =
      HResp.ok 201 "created"
    ∧ (CreateEvent (some 1) (some ⟨"T", "", "", "2024-06-01"⟩) ⟨false, true⟩ c4state).2.attendees
        = []
    ∧ (CreateEvent (some 1) (some ⟨"T", "", "", "2024-06-01"⟩) ⟨false, true⟩ c4state).2.events =
        [⟨1, "T", "", "", 63852796800, 1⟩] :=
  ⟨by decide, by decide, by decide⟩

/-! ## C5 -/

/-- An event-only search with only `end_date` set reduces to the event
query with the 23h59m59s-extended bound. -/
lemma searchHandler_event_endOnly (u : Nat) (s : DBState) (endStr : String) (t : Int)
    (hp : parseEventDate endStr = some t) (hne : (endStr == "") = false) :
    SearchHandler (some u) ⟨"", "", endStr, "", "event"⟩ s =
      Except.ok ((searchEvents u "" 0 (t + 86399) "" s).map SearchResult.eventResult ++ []) := by
  unfold SearchHandler
  dsimp only
  rw [hne]
  rw [hp]
  rfl

/-- Events dated 2024-06-01T23:59:59 and 2024-06-02T00:00:01 (the dates of
the spec's inclusivity example). -/
def c5state : DBState :=
  ⟨[], [⟨1, "A", "", "", 63852883199, 1⟩, ⟨2, "B", "", "", 63852883201, 1⟩], [], [], 3, 1, 1⟩

/-- C5 (corrected).  Whatever the layout of a present `end_date` — calendar
date or RFC3339 instant — SearchHandler adds 23h59m59s to the parsed value
and keeps exactly the events dated at or before that extended bound.  For a
calendar date this gives the claimed through-23:59:59 inclusivity (the
concrete conjuncts: `end_date=2024-06-01` keeps the event dated
2024-06-01T23:59:59 and drops the one dated 2024-06-02T00:00:01); for an
RFC3339 instant, events up to 23:59:59 after the given instant are also
kept, refuting the claim's exactly-at-or-before-the-instant reading (see
`c5_counterexample`). -/
theorem c5_endDate_inclusive :
    (∀ (u : Nat) (s : DBState) (endStr : String) (t : Int) (rs : List SearchResult),
       parseEventDate endStr = some t → t + 86399 ≠ 0 →
       SearchHandler (some u) ⟨"", "", endStr, "", "event"⟩ s = Except.ok rs →
       ∀ e : Event, SearchResult.eventResult e ∈ rs ↔ (e ∈ s.events ∧ e.date ≤ t + 86399))
    ∧ SearchHandler (some 1) ⟨"", "", "2024-06-01", "", "event"⟩ c5state =
        Except.ok [SearchResult.eventResult ⟨1, "A", "", "", 63852883199, 1⟩]
    ∧ parseRFC3339 "2024-06-01T23:59:59Z" = some 63852883199
    ∧ parseRFC3339 "2024-06-02T00:00:01Z" = some 63852883201
    ∧ c5state.events.map Event.date = [63852883199, 63852883201] := by
  refine ⟨?_, by decide, by decide, by decide, by decide⟩
  intro u s endStr t rs hp h0 hok e
  by_cases he0 : endStr = ""
  · subst he0
    rw [show parseEventDate "" = none from rfl] at hp
    cases hp
  · have hne : (endStr == "") = false := by simpa using he0
    rw [searchHandler_event_endOnly u s endStr t hp hne] at hok
    have hrs : rs = (searchEvents u "" 0 (t + 86399) "" s).map SearchResult.eventResult ++ [] := by
      injection hok with h
      exact h.symm
    subst hrs
    have hiff : ∀ e : Event,
        eventMatches u "" 0 (t + 86399) "" s e = true ↔ e.date ≤ t + 86399 := by
      intro e'
      have hT0 : ((t + 86399 : Int) == 0) = false := by simpa using h0
      simp [eventMatches, hT0]
    rw [List.append_nil, List.mem_map]
    constructor
    · rintro ⟨x, hx, heq⟩
      have hxe : x = e := by
        injection heq
      subst hxe
      simp only [searchEvents] at hx
      have hx' := (List.perm_insertionSort eventLE _).mem_iff.mp hx
      obtain ⟨hmem, hpred⟩ := List.mem_filter.mp hx'
      exact ⟨hmem, (hiff _).mp hpred⟩
    · rintro ⟨hmem, hle⟩
      refine ⟨e, ?_, rfl⟩
      simp only [searchEvents]
      refine (List.perm_insertionSort eventLE _).mem_iff.mpr ?_
      exact List.mem_filter.mpr ⟨hmem, (hiff _).mpr hle⟩

/-- Witness for C5's quantified part: at the concrete calendar-date query
the kept event is exactly the one dated at or before the extended bound. -/
theorem c5_witness :
    SearchResult.eventResult (⟨1, "A", "", "", 63852883199, 1⟩ : Event) ∈
      [SearchResult.eventResult ⟨1, "A", "", "", 63852883199, 1⟩] ↔
    ((⟨1, "A", "", "", 63852883199, 1⟩ : Event) ∈ c5state.events
      ∧ (63852883199 : Int) ≤ 63852796800 + 86399) :=
  c5_endDate_inclusive.1 1 c5state "2024-06-01" 63852796800
    [SearchResult.eventResult ⟨1, "A", "", "", 63852883199, 1⟩]
    (by decide) (by decide) c5_endDate_inclusive.2.1
    ⟨1, "A", "", "", 63852883199, 1⟩

/-- An event dated 2024-06-01T12:00:00Z, after the instant
2024-06-01T00:00:00Z. -/
def c5bstate : DBState := ⟨[], [⟨1, "A", "", "", 63852840000, 1⟩], [], [], 2, 1, 1⟩

/-- Counterexample to C5 as stated: with `end_date` given as the RFC3339
instant 2024-06-01T00:00:00Z, the search still returns the event dated
2024-06-01T12:00:00Z — twelve hours after the instant — because the
23h59m59s extension is applied to both date layouts, not only to calendar
dates. -/
theorem c5_counterexample :
    parseRFC3339 "2024-06-01T00:00:00Z" = some 63852796800
    ∧ (63852796800 : Int) < 63852840000
    ∧ c5bstate.events.map Event.date = [63852840000]
    ∧ SearchHandler (some 1) ⟨"", "", "2024-06-01T00:00:00Z", "", "event"⟩ c5bstate =
        Except.ok [SearchResult.eventResult ⟨1, "A", "", "", 63852840000, 1⟩] :=
  ⟨by decide, by decide, by decide, by decide⟩

/-! ## C6 -/

/-- C6 (corrected).  SearchHandler does not validate the `type` parameter:
for every request whose non-empty `type` is none of event/task/both — once
the date parameters parse (or are absent) — both query blocks are skipped
and the handler succeeds with the empty result sequence; no InvalidInput
error is produced (not even for an invalid `role`, whose check lives inside
the skipped blocks). -/
theorem c6_unrecognized_type_no_validation (u : Nat) (req : SearchRequest) (s : DBState)
    (h1 : req.rtype ≠ "") (h2 : req.rtype ≠ "event") (h3 : req.rtype ≠ "task")
    (h4 : req.rtype ≠ "both")
    (hsd : req.startDate = "" ∨ (∃ v, parseEventDate req.startDate = some v))
    (hed : req.endDate = "" ∨ (∃ v, parseEventDate req.endDate = some v)) :
    SearchHandler (some u) req s = Except.ok [] := by
  have hty : searchType req = req.rtype := by
    unfold searchType
    have h1' : (req.rtype == "") = false := by simpa using h1
    rw [h1']
    simp
  have htb : (searchType req == "both") = false := by
    rw [hty]
    simpa using h4
  have hte : (searchType req == "event") = false := by
    rw [hty]
    simpa using h2
  have htt : (searchType req == "task") = false := by
    rw [hty]
    simpa using h3
  obtain ⟨sv, hsv⟩ :
      ∃ v, (if req.startDate == "" then some (0 : Int) else parseEventDate req.startDate) =
        some v := by
    rcases hsd with h | ⟨v, h⟩
    · refine ⟨0, ?_⟩
      have h' : (req.startDate == "") = true := by simpa using h
      rw [h']
      rfl
    · by_cases hse : req.startDate = ""
      · refine ⟨0, ?_⟩
        have h' : (req.startDate == "") = true := by simpa using hse
        rw [h']
        rfl
      · refine ⟨v, ?_⟩
        have h' : (req.startDate == "") = false := by simpa using hse
        rw [h']
        simpa using h
  obtain ⟨ev', hev'⟩ :
      ∃ v, (if req.endDate == "" then some (0 : Int)
            else (parseEventDate req.endDate).map (fun t => t + 86399)) = some v := by
    rcases hed with h | ⟨v, h⟩
    · refine ⟨0, ?_⟩
      have h' : (req.endDate == "") = true := by simpa using h
      rw [h']
      rfl
    · by_cases hse : req.endDate = ""
      · refine ⟨0, ?_⟩
        have h' : (req.endDate == "") = true := by simpa using hse
        rw [h']
        rfl
      · refine ⟨v + 86399, ?_⟩
        have h' : (req.endDate == "") = false := by simpa using hse
        rw [h']
        simp [h]
  unfold SearchHandler
  rw [hsv]
  dsimp only
  rw [hev']
  dsimp only
  rw [htb, hte, htt]
  rfl

/-- A store with one event, to show the skipped search is not vacuous. -/
def c6state : DBState := ⟨[], [⟨1, "A", "", "", 0, 1⟩], [], [], 2, 1, 1⟩

/-- Witness for C6 applied at a concrete unrecognized type. -/
theorem c6_witness :
    SearchHandler (some 1) ⟨"", "", "", "", "garbage"⟩ c6state = Except.ok [] :=
  c6_unrecognized_type_no_validation 1 ⟨"", "", "", "", "garbage"⟩ c6state
    (by decide) (by decide) (by decide) (by decide) (Or.inl rfl) (Or.inl rfl)

/-- Counterexample to C6 as stated: `type=garbage` over a store that does
contain an event yields a success with the empty sequence, not an
InvalidInput validation error. -/
theorem c6_counterexample :
    SearchHandler (some 1) ⟨"", "", "", "", "garbage"⟩ c6state = Except.ok []
    ∧ c6state.events ≠ [] :=
  ⟨by decide, by decide⟩

/-! ## C7 -/

/-- C7 (confirmed).  SetAttendance normalizes the posted status by trimming,
lower-casing and title-casing, accepts it only if the result is Going,
Maybe or Not Going, and rejects anything else with the invalid-status
error, leaving the state unchanged.  The concrete conjuncts check the
spec's examples: "going", " GOING " and "Going" all normalize to Going,
"not going" to Not Going, and "whatever" normalizes to none of the three
canonical values. -/
theorem c7_status_normalization :
    (∀ (uid : Nat) (idp : String) (eid : Nat) (raw : String) (s : DBState),
       parseUint64 idp = some eid → raw ≠ "" →
       normalizeStatus raw ≠ "Going" → normalizeStatus raw ≠ "Maybe" →
       normalizeStatus raw ≠ "Not Going" →
       SetAttendance (some uid) idp (some raw) s =
         (HResp.err 400 "status must be one of: Going, Maybe, Not Going", s))
    ∧ (∀ (uid : Nat) (idp : String) (raw : String) (s : DBState),
       ((SetAttendance (some uid) idp (some raw) s).1 = HResp.ok 200 "attendance created" ∨
        (SetAttendance (some uid) idp (some raw) s).1 = HResp.ok 200 "attendance updated") →
       (normalizeStatus raw = "Going" ∨ normalizeStatus raw = "Maybe" ∨
        normalizeStatus raw = "Not Going"))
    ∧ normalizeStatus "going" = "Going"
    ∧ normalizeStatus " GOING " = "Going"
    ∧ normalizeStatus "Going" = "Going"
    ∧ normalizeStatus "not going" = "Not Going"
    ∧ (normalizeStatus "whatever" ≠ "Going" ∧ normalizeStatus "whatever" ≠ "Maybe" ∧
       normalizeStatus "whatever" ≠ "Not Going") := by
  refine ⟨?_, ?_, by decide, by decide, by decide, by decide, by decide⟩
  · intro uid idp eid raw s hp hraw h1 h2 h3
    unfold SetAttendance
    rw [hp]
    dsimp only
    have hr : (raw == "") = false := by simpa using hraw
    simp only [hr, Bool.false_eq_true, if_false]
    have hv : (normalizeStatus raw != "Going" && normalizeStatus raw != "Maybe" &&
        normalizeStatus raw != "Not Going") = true := by
      simp [h1, h2, h3]
    rw [hv]
    rfl
  · intro uid idp raw s hok
    by_cases hva : normalizeStatus raw = "Going" ∨ normalizeStatus raw = "Maybe" ∨
        normalizeStatus raw = "Not Going"
    · exact hva
    · exfalso
      push_neg at hva
      obtain ⟨h1, h2, h3⟩ := hva
      unfold SetAttendance at hok
      cases hpv : parseUint64 idp with
      | none =>
        rw [hpv] at hok
        simp at hok
      | some eid =>
        rw [hpv] at hok
        dsimp only at hok
        by_cases hre : raw = ""
        · subst hre
          simp at hok
        · have hr : (raw == "") = false := by simpa using hre
          simp only [hr, Bool.false_eq_true, if_false] at hok
          have hv : (normalizeStatus raw != "Going" && normalizeStatus raw != "Maybe" &&
              normalizeStatus raw != "Not Going") = true := by
            simp [h1, h2, h3]
          rw [hv] at hok
          simp at hok

/-- Witness for C7: the spec's "whatever" example is rejected with the
invalid-status error and an unchanged store. -/
theorem c7_witness :
    SetAttendance (some 1) "1" (some "whatever") ⟨[], [], [], [], 1, 1, 1⟩ =
      (HResp.err 400 "status must be one of: Going, Maybe, Not Going",
       ⟨[], [], [], [], 1, 1, 1⟩) :=
  c7_status_normalization.1 1 "1" 1 "whatever" ⟨[], [], [], [], 1, 1, 1⟩
    (by decide) (by decide) (by decide) (by decide) (by decide)

/-! ## C8 -/

/-- C8 (corrected).  InviteUser runs its checks in the order authenticate →
parse event id → bind body → event existence → organizer authorization →
target-user existence: the organizer check comes BEFORE the target-user
lookup, so an invite by a non-organizer naming a target that does not even
exist fails with Forbidden ("only organizer can invite others"), not with
the "invited user not found" existence error claimed by the spec (see
`c8_counterexample`); the user-not-found error is reached only when the
caller IS the organizer. -/
theorem c8_invite_check_order (s : DBState) (idp : String) (body : Option Nat) :
    (InviteUser none idp body s = (HResp.err 401 "unauthorized", s))
    ∧ (∀ actor, parseUint64 idp = none →
        InviteUser (some actor) idp body s = (HResp.err 400 "invalid event id", s))
    ∧ (∀ actor eid target, parseUint64 idp = some eid → body = some target → target ≠ 0 →
        s.events.find? (fun e => e.id == eid) = none →
        InviteUser (some actor) idp body s = (HResp.err 404 "event not found", s))
    ∧ (∀ actor eid target ev, parseUint64 idp = some eid → body = some target → target ≠ 0 →
        s.events.find? (fun e => e.id == eid) = some ev → ev.organizerID ≠ actor →
        InviteUser (some actor) idp body s =
          (HResp.err 403 "only organizer can invite others", s))
    ∧ (∀ actor eid target ev, parseUint64 idp = some eid → body = some target → target ≠ 0 →
        s.events.find? (fun e => e.id == eid) = some ev → ev.organizerID = actor →
        s.users.find? (fun u => u.id == target) = none →
        InviteUser (some actor) idp body s = (HResp.err 404 "invited user not found", s)) := by
  refine ⟨rfl, ?_, ?_, ?_, ?_⟩
  · intro actor hp
    unfold InviteUser
    rw [hp]
  · intro actor eid target hp hb htz hev
    subst hb
    unfold InviteUser
    rw [hp]
    dsimp only
    have htz' : (target == 0) = false := by simpa using htz
    simp only [htz', Bool.false_eq_true, if_false]
    rw [hev]
  · intro actor eid target ev hp hb htz hev hne
    subst hb
    unfold InviteUser
    rw [hp]
    dsimp only
    have htz' : (target == 0) = false := by simpa using htz
    simp only [htz', Bool.false_eq_true, if_false]
    rw [hev]
    dsimp only
    have hne' : (ev.organizerID != actor) = true := by simpa using hne
    rw [hne']
    rfl
  · intro actor eid target ev hp hb htz hev horg htu
    subst hb
    unfold InviteUser
    rw [hp]
    dsimp only
    have htz' : (target == 0) = false := by simpa using htz
    simp only [htz', Bool.false_eq_true, if_false]
    rw [hev]
    dsimp only
    have horg' : (ev.organizerID != actor) = false := by simp [horg]
    simp only [horg', Bool.false_eq_true, if_false]
    rw [htu]

/-- One event organized by user 1; user 99 is not registered. -/
def c8state : DBState := ⟨[⟨1, "a"⟩], [⟨1, "T", "", "", 0, 1⟩], [], [], 2, 1, 1⟩

/-- Witness for C8 at concrete inputs: the non-organizer caller 3 naming the
nonexistent target 99 receives Forbidden. -/
theorem c8_witness :
    InviteUser (some 3) "1" (some 99) c8state =
      (HResp.err 403 "only organizer can invite others", c8state) :=
  (c8_invite_check_order c8state "1" (some 99)).2.2.2.1 3 1 99 ⟨1, "T", "", "", 0, 1⟩
    (by decide) rfl (by decide) (by decide) (by decide)

/-- Counterexample to C8 as stated: the non-organizer caller 2 invites the
nonexistent user 99 to event 1 and receives Forbidden ("only organizer can
invite others"), not the claimed "user not found" existence failure. -/
theorem c8_counterexample :
    (∀ u ∈ c8state.users, u.id ≠ 99)
    ∧ InviteUser (some 2) "1" (some 99) c8state =
        (HResp.err 403 "only organizer can invite others", c8state) :=
  ⟨by decide, by decide⟩

/-! ## C9 -/

/-- Is a search result event-tagged? -/
def isEventTagged : SearchResult → Bool
  | SearchResult.eventResult _ => true
  | SearchResult.taskResult _ _ => false

/-- The date a search result is ordered by: the event's own date for an
event hit, the parent event's date for a task hit. -/
def resultDate : SearchResult → Int
  | SearchResult.eventResult e => e.date
  | SearchResult.taskResult _ e => e.date

lemma filterMap_eq_map_of_mem {α β : Type} {f : α → Option β} {g : α → β} :
    ∀ {l : List α}, (∀ x ∈ l, f x = some (g x)) → l.filterMap f = l.map g
  | [], _ => rfl
  | a :: t, h => by
    simp only [List.filterMap_cons, List.map_cons, h a (List.mem_cons_self a t),
      filterMap_eq_map_of_mem (fun x hx => h x (List.mem_cons_of_mem a hx))]

lemma mem_joinTasksEvents {s : DBState} {p : Task × Event} (hp : p ∈ joinTasksEvents s) :
    p.2 ∈ s.events ∧ p.2.id = p.1.eventID := by
  unfold joinTasksEvents at hp
  obtain ⟨t, ht, hp2⟩ := List.mem_flatMap.mp hp
  obtain ⟨e, he, rfl⟩ := List.mem_map.mp hp2
  refine ⟨List.mem_of_mem_filter he, ?_⟩
  have := (List.mem_filter.mp he).2
  simpa using this

/-- In a store with distinct event ids, re-fetching the parent event of a
joined task row returns exactly the joined event, so the attach step of
`searchTasks` is the identity on the sorted join rows. -/
lemma searchTasks_eq_sorted_join {s : DBState} (hinv : Inv s) (u : Nat) (kw : String)
    (startT endT : Int) (role : String) :
    searchTasks u kw startT endT role s =
      List.insertionSort rowLE
        ((joinTasksEvents s).filter (taskRowMatches u kw startT endT role s)) := by
  unfold searchTasks
  rw [filterMap_eq_map_of_mem (g := fun p => (p.1, p.2)) ?_]
  · rw [show (fun (p : Task × Event) => (p.1, p.2)) = id from rfl]
    exact List.map_id _
  · intro p hp
    have hpj : p ∈ joinTasksEvents s :=
      List.mem_of_mem_filter ((List.perm_insertionSort rowLE _).mem_iff.mp hp)
    obtain ⟨hp2mem, hp2id⟩ := mem_joinTasksEvents hpj
    cases hf : s.events.find? (fun e => e.id == p.1.eventID) with
    | none =>
      exfalso
      have := List.find?_eq_none.mp hf p.2 hp2mem
      simp [hp2id] at this
    | some e' =>
      have he'mem : e' ∈ s.events := List.mem_of_find?_eq_some hf
      have he'id : e'.id = p.1.eventID := by
        have := List.find?_some hf
        simpa using this
      have he'eq : e' = p.2 := event_id_inj hinv he'mem hp2mem (he'id.trans hp2id.symm)
      rw [he'eq]
      rfl

lemma sorted_eventResults (l : List Event) (hl : l.Sorted eventLE) :
    ((l.map SearchResult.eventResult).map resultDate).Sorted (· ≤ ·) := by
  rw [List.map_map]
  exact hl.map _ (fun a b h => h)

lemma sorted_taskResults (l : List (Task × Event)) (hl : l.Sorted rowLE) :
    ((l.map (fun p => SearchResult.taskResult p.1 p.2)).map resultDate).Sorted (· ≤ ·) := by
  rw [List.map_map]
  exact hl.map _ (fun a b h => h)

/-- C9 (confirmed).  A type=both search answers with all event-tagged
results first (in ascending event-date order) followed by all task-tagged
results (in ascending parent-event-date order) — the two kinds are never
interleaved; a type=event search yields only event-tagged results and a
type=task search only task-tagged ones. -/
theorem c9_search_ordering (s : DBState) (hs : Reachable s) (u : Nat) (req : SearchRequest)
    (rs : List SearchResult) (hok : SearchHandler (some u) req s = Except.ok rs) :
    (req.rtype = "both" → ∃ A B, rs = A ++ B
        ∧ (∀ r ∈ A, isEventTagged r = true) ∧ (∀ r ∈ B, isEventTagged r = false)
        ∧ (A.map resultDate).Sorted (· ≤ ·) ∧ (B.map resultDate).Sorted (· ≤ ·))
    ∧ (req.rtype = "event" → ∀ r ∈ rs, isEventTagged r = true)
    ∧ (req.rtype = "task" → ∀ r ∈ rs, isEventTagged r = false) := by
  have hinv := reachable_inv hs
  unfold SearchHandler at hok
  cases hS1 : (if req.startDate == "" then some (0 : Int) else parseEventDate req.startDate) with
  | none =>
    rw [hS1] at hok
    simp at hok
  | some startT =>
    rw [hS1] at hok
    dsimp only at hok
    cases hS2 : (if req.endDate == "" then some (0 : Int)
        else (parseEventDate req.endDate).map (fun t => t + 86399)) with
    | none =>
      rw [hS2] at hok
      simp at hok
    | some endT =>
      rw [hS2] at hok
      dsimp only at hok
      refine ⟨?_, ?_, ?_⟩
      · intro hty
        have hst : searchType req = "both" := by
          unfold searchType
          rw [hty]
          rfl
        rw [hst] at hok
        cases hrb : roleBad req with
        | true =>
          rw [hrb] at hok
          simp at hok
        | false =>
          rw [hrb] at hok
          simp only [Bool.false_eq_true, if_false] at hok
          rw [show (("both" : String) == "both" || ("both" : String) == "event") = true
            from rfl] at hok
          rw [show (("both" : String) == "both" || ("both" : String) == "task") = true
            from rfl] at hok
          simp only [if_true] at hok
          try dsimp only at hok
          have hrs : rs =
              (searchEvents u (goTrimSpace req.keyword) startT endT req.role s).map
                SearchResult.eventResult ++
              (searchTasks u (goTrimSpace req.keyword) startT endT req.role s).map
                (fun p => SearchResult.taskResult p.1 p.2) := by
            injection hok with h
            exact h.symm
          refine ⟨_, _, hrs, ?_, ?_, ?_, ?_⟩
          · intro r hr
            obtain ⟨x, _, rfl⟩ := List.mem_map.mp hr
            rfl
          · intro r hr
            obtain ⟨x, _, rfl⟩ := List.mem_map.mp hr
            rfl
          · refine sorted_eventResults _ ?_
            unfold searchEvents
            exact List.sorted_insertionSort eventLE _
          · refine sorted_taskResults _ ?_
            rw [searchTasks_eq_sorted_join hinv]
            exact List.sorted_insertionSort rowLE _
      · intro hty
        have hst : searchType req = "event" := by
          unfold searchType
          rw [hty]
          rfl
        rw [hst] at hok
        cases hrb : roleBad req with
        | true =>
          rw [hrb] at hok
          rw [show (("event" : String) == "both" || ("event" : String) == "event") = true
            from rfl] at hok
          simp at hok
        | false =>
          rw [hrb] at hok
          rw [show (("event" : String) == "both" || ("event" : String) == "event") = true
            from rfl] at hok
          rw [show (("event" : String) == "both" || ("event" : String) == "task") = false
            from rfl] at hok
          simp only [Bool.false_eq_true, if_false, if_true] at hok
          try dsimp only at hok
          have hrs : rs =
              (searchEvents u (goTrimSpace req.keyword) startT endT req.role s).map
                SearchResult.eventResult ++ [] := by
            injection hok with h
            exact h.symm
          subst hrs
          intro r hr
          rw [List.append_nil] at hr
          obtain ⟨x, _, rfl⟩ := List.mem_map.mp hr
          rfl
      · intro hty
        have hst : searchType req = "task" := by
          unfold searchType
          rw [hty]
          rfl
        rw [hst] at hok
        cases hrb : roleBad req with
        | true =>
          rw [hrb] at hok
          rw [show (("task" : String) == "both" || ("task" : String) == "task") = true
            from rfl] at hok
          simp at hok
        | false =>
          rw [hrb] at hok
          rw [show (("task" : String) == "both" || ("task" : String) == "event") = false
            from rfl] at hok
          rw [show (("task" : String) == "both" || ("task" : String) == "task") = true
            from rfl] at hok
          simp only [Bool.false_eq_true, if_false, if_true] at hok
          try dsimp only at hok
          have hrs : rs =
              [] ++ (searchTasks u (goTrimSpace req.keyword) startT endT req.role s).map
                (fun p => SearchResult.taskResult p.1 p.2) := by
            injection hok with h
            exact h.symm
          subst hrs
          intro r hr
          rw [List.nil_append] at hr
          obtain ⟨x, _, rfl⟩ := List.mem_map.mp hr
          rfl

/-- User 1 creates the "Offsite" event and a "Book venue" task on it. -/
def c9state : DBState :=
  (CreateTask (some 1) "1" (some ⟨"Book venue", ""⟩)
    (CreateEvent (some 1) (some ⟨"Offsite", "", "", "2024-06-01"⟩) noFailCreate
      ⟨[⟨1, "a"⟩], [], [], [], 1, 1, 1⟩).2).2

lemma c9state_reachable : Reachable c9state :=
  Reachable.stepCreateTask 1 "1" ⟨"Book venue", ""⟩
    (Reachable.stepCreateEvent 1 ⟨"Offsite", "", "", "2024-06-01"⟩
      (Reachable.init [⟨1, "a"⟩] 1 1 1))

/-- Witness for C9 at a concrete type=both search over one event with one
task: the event hit precedes the task hit. -/
theorem c9_witness :
    (("both" : String) = "both" → ∃ A B,
        ([SearchResult.eventResult ⟨1, "Offsite", "", "", 63852796800, 1⟩,
          SearchResult.taskResult ⟨1, 1, "Book venue", ""⟩
            ⟨1, "Offsite", "", "", 63852796800, 1⟩] : List SearchResult) = A ++ B
        ∧ (∀ r ∈ A, isEventTagged r = true) ∧ (∀ r ∈ B, isEventTagged r = false)
        ∧ (A.map resultDate).Sorted (· ≤ ·) ∧ (B.map resultDate).Sorted (· ≤ ·))
    ∧ (("both" : String) = "event" →
        ∀ r ∈ ([SearchResult.eventResult ⟨1, "Offsite", "", "", 63852796800, 1⟩,
          SearchResult.taskResult ⟨1, 1, "Book venue", ""⟩
            ⟨1, "Offsite", "", "", 63852796800, 1⟩] : List SearchResult),
          isEventTagged r = true)
    ∧ (("both" : String) = "task" →
        ∀ r ∈ ([SearchResult.eventResult ⟨1, "Offsite", "", "", 63852796800, 1⟩,
          SearchResult.taskResult ⟨1, 1, "Book venue", ""⟩
            ⟨1, "Offsite", "", "", 63852796800, 1⟩] : List SearchResult),
          isEventTagged r = false) :=
  c9_search_ordering c9state c9state_reachable 1 ⟨"", "", "", "", "both"⟩
    [SearchResult.eventResult ⟨1, "Offsite", "", "", 63852796800, 1⟩,
     SearchResult.taskResult ⟨1, 1, "Book venue", ""⟩ ⟨1, "Offsite", "", "", 63852796800, 1⟩]
    (by decide)

/-! ## C10 -/

/-- C10 (confirmed).  GetTasksByEvent performs no event-existence check and
no membership check: for every well-formed event id matching no stored
Event (in a reachable store, where tasks always reference existing events),
it returns success with the empty task list rather than a NotFound error —
indeed its body never consults the events table or the caller identity at
all. -/
theorem c10_getTasks_no_existence_check (s : DBState) (hs : Reachable s) (idp : String)
    (eid : Nat) (hp : parseUint64 idp = some eid) (hne : ∀ e ∈ s.events, e.id ≠ eid) :
    GetTasksByEvent idp s = Except.ok [] := by
  have hinv := reachable_inv hs
  unfold GetTasksByEvent
  rw [hp]
  dsimp only
  have hfe : s.tasks.filter (fun t => t.eventID == eid) = [] := by
    refine List.filter_eq_nil_iff.mpr ?_
    intro t ht
    obtain ⟨e, he, hid⟩ := hinv.taskRef t ht
    simp only [beq_iff_eq]
    intro hc
    exact hne e he (hid.trans hc)
  rw [hfe]

/-- Witness for C10: event id 999 matches nothing in the store that holds
event 1 and its task, and the handler still reports success with no
tasks. -/
theorem c10_witness : GetTasksByEvent "999" c9state = Except.ok [] :=
  c10_getTasks_no_existence_check c9state c9state_reachable "999" 999 (by decide) (by decide)

end EventPlanner
